import Mathlib

/-!
Verification of the notification scheduling and delivery engine of the
AppNotify calendar-reminder backend (`backend/utils/notification_service.py`,
`backend/models/models.py`, `backend/routes/notifications.py`,
`backend/utils/email_service.py`, and the legacy copies in
`backend/server.py`).

Timestamps are modelled as `PyDatetime`: a wall-clock reading in seconds
together with an optional UTC offset (`none` models a zone-naive Python
`datetime`).  The document store is a record of in-memory lists; Mongo's
`insert_one` appends, `update_one` patches the first record matching the
filter, `delete_many` filters.  Fallible Python code (a `TypeError` from
`timedelta(minutes=None)`, a naive/aware comparison, an uncaught exception)
is modelled with `Option`/`Except`/abort flags.
-/

namespace AppNotify

/-- A Python `datetime`: a wall-clock reading (in whole seconds) plus an
optional UTC offset in seconds; `tz = none` models a zone-naive value. -/
structure PyDatetime where
  seconds : Int
  tz : Option Int
deriving DecidableEq, Repr

/-- `dt.replace(tzinfo=timezone.utc)` applied when `dt.tzinfo is None`:
a naive reading is stamped as UTC, keeping the wall-clock value. -/
def ensureUTC (dt : PyDatetime) : PyDatetime :=
  if dt.tz = none then { dt with tz := some 0 } else dt

/-- The absolute instant (seconds since the epoch, UTC) denoted by an
aware datetime; a naive one is read at offset zero. -/
def absSeconds (dt : PyDatetime) : Int :=
  dt.seconds - dt.tz.getD 0

/-- `models.ReminderInterval`: `value: Optional[int]`, `unit: str`,
`custom_date: Optional[datetime]`. -/
structure ReminderInterval where
  value : Option Int
  unit : String
  custom_date : Option PyDatetime
deriving DecidableEq, Repr

/-- `dt - timedelta(<unit>=v)` where the interval's `value` may be `None`:
Python raises `TypeError` on `timedelta(minutes=None)`, modelled by `none`.
`unitSecs` is the length of one unit in seconds.  Subtraction keeps the
`tzinfo` of the left operand. -/
def subTimedelta (dt : PyDatetime) (v : Option Int) (unitSecs : Int) : Option PyDatetime :=
  v.map (fun n => { dt with seconds := dt.seconds - n * unitSecs })

/-- `calculate_notification_time` of `backend/utils/notification_service.py`
(typed inputs; the `isinstance(..., str)` re-parsing branches do not arise).
`none` models the `TypeError` raised when a relative unit is used with
`value = None`. -/
def calculate_notification_time (event_date : PyDatetime) (interval : ReminderInterval) :
    Option PyDatetime :=
  let ed := ensureUTC event_date
  if interval.unit = "custom" ∧ interval.custom_date.isSome then
    some (ensureUTC (interval.custom_date.getD ed))
  else
    (if interval.unit = "minutes" then subTimedelta ed interval.value 60
     else if interval.unit = "hours" then subTimedelta ed interval.value 3600
     else if interval.unit = "days" then subTimedelta ed interval.value 86400
     else if interval.unit = "weeks" then subTimedelta ed interval.value 604800
     else some ed).map ensureUTC

/-- `models.Event` (the schedule-relevant fields). -/
structure Event where
  id : String
  user_id : String
  title : String
  event_date : PyDatetime
  reminder_intervals : List ReminderInterval
deriving DecidableEq, Repr

/-- `models.Subscription`. -/
structure Subscription where
  id : String
  event_id : String
  contact_id : String
  user_id : String
deriving DecidableEq, Repr

/-- `models.Contact` (the fields the engine reads). -/
structure Contact where
  id : String
  user_id : String
  name : String
  email : String
deriving DecidableEq, Repr

/-- `models.User` (the fields the routes read). -/
structure User where
  id : String
  firebase_uid : String
  email : String
deriving DecidableEq, Repr

/-- `models.Notification`.  `id` is a natural number modelling the fresh
`uuid4` string drawn at construction. -/
structure Notification where
  id : Nat
  event_id : String
  subscription_id : String
  contact_id : String
  user_id : String
  scheduled_at : PyDatetime
  sent_at : Option PyDatetime
  status : String
  error_message : Option String
  created_at : PyDatetime
deriving DecidableEq, Repr

/-- Construction of a `Notification(...)`: pydantic fills the defaulted
fields `sent_at = None`, `status = "pending"`, `error_message = None`,
`created_at = datetime.now(timezone.utc)`. -/
def mkNotification (fresh : Nat) (event_id subscription_id contact_id user_id : String)
    (scheduled_at : PyDatetime) (now : Int) : Notification :=
  { id := fresh
    event_id := event_id
    subscription_id := subscription_id
    contact_id := contact_id
    user_id := user_id
    scheduled_at := scheduled_at
    sent_at := none
    status := "pending"
    error_message := none
    created_at := { seconds := now, tz := some 0 } }

/-- The interval loop of `generate_notifications_for_subscription`
(`backend/utils/notification_service.py`).  `now` is the absolute current
instant (`datetime.now(timezone.utc)`); `fresh` feeds the ids of the
created records.  Returns the notifications inserted (in order) and `false`
when the loop was aborted by a `TypeError` from
`calculate_notification_time` (records inserted before the abort remain).
The creation gate inserts iff
`(scheduled_at - now).total_seconds() >= -60`. -/
def genLoop (event : Event) (intervals : List ReminderInterval) (sub : Subscription)
    (user_id : String) (now : Int) (fresh : Nat) : List Notification × Bool :=
  match intervals with
  | [] => ([], true)
  | i :: rest =>
    match calculate_notification_time event.event_date i with
    | none => ([], false)
    | some sched =>
      let timeUntil := absSeconds sched - now
      if -60 ≤ timeUntil then
        let n := mkNotification fresh event.id sub.id sub.contact_id user_id sched now
        let r := genLoop event rest sub user_id now (fresh + 1)
        (n :: r.1, r.2)
      else
        genLoop event rest sub user_id now fresh

/-- `generate_notifications_for_subscription` (utils copy): run the interval
loop over the event's reminder intervals. -/
def generate_notifications_for_subscription (event : Event) (sub : Subscription)
    (user_id : String) (now : Int) (fresh : Nat) : List Notification × Bool :=
  genLoop event event.reminder_intervals sub user_id now fresh

/-- The document store: one list per Mongo collection. -/
structure DB where
  users : List User
  contacts : List Contact
  events : List Event
  subscriptions : List Subscription
  notifications : List Notification
deriving DecidableEq, Repr

/-- Sequential generation over the subscriptions of an event
(the loop of `regenerate_notifications`); aborts — propagating the
exception to the caller — as soon as one factory call aborts. -/
def genForSubs (event : Event) (user_id : String) (now : Int) :
    List Subscription → Nat → List Notification × Bool
  | [], _ => ([], true)
  | s :: rest, fresh =>
    let r := generate_notifications_for_subscription event s user_id now fresh
    if r.2 then
      let r2 := genForSubs event user_id now rest (fresh + r.1.length)
      (r.1 ++ r2.1, r2.2)
    else
      (r.1, false)

/-- `regenerate_notifications` (`backend/utils/notification_service.py`):
delete the event's pending notifications, then — if the event still
exists — regenerate one batch per subscription (first 1000).  Returns the
new store, a completion flag (`false` models an escaped `TypeError`) and
the next fresh id. -/
def regenerate_notifications (event_id user_id : String) (now : Int) (db : DB)
    (fresh : Nat) : DB × Bool × Nat :=
  let kept := db.notifications.filter
    (fun n => !(n.event_id == event_id && n.status == "pending"))
  match db.events.find? (fun e => e.id == event_id) with
  | none => ({ db with notifications := kept }, true, fresh)
  | some event =>
    let subs := (db.subscriptions.filter (fun s => s.event_id == event_id)).take 1000
    let r := genForSubs event user_id now subs fresh
    ({ db with notifications := kept ++ r.1 }, r.2, fresh + r.1.length)

/-- A notification's pending records for one event, as queried by the
delete step of regeneration. -/
def pending_for (event_id : String) (db : DB) : List Notification :=
  db.notifications.filter (fun n => n.event_id == event_id && n.status == "pending")

/-- Outcome of one call to `send_email` as seen by the sweep: a `True`
return, a `False` return, or an exception with message `str(e)`. -/
inductive SendResult where
  | ok : SendResult
  | failed : SendResult
  | raised (msg : String) : SendResult
deriving DecidableEq, Repr

/-- The mail-transport environment: the outcome of sending to a given
recipient address. -/
structure SendEnv where
  send : String → SendResult

/-- The sweep's due filter: `status = "pending"` and `scheduled_at <= now`
(the stored ISO timestamp comparison, read at the instant level). -/
def sweepDue (now : Int) (n : Notification) : Bool :=
  n.status == "pending" && decide (absSeconds n.scheduled_at ≤ now)

/-- The batch a sweep tick selects: due pending notifications, at most
100 (`to_list(100)`). -/
def sweepSelect (now : Int) (db : DB) : List Notification :=
  (db.notifications.filter (sweepDue now)).take 100

/-- Mongo `update_one`: apply the `$set` patch to the first record
matching the filter. -/
def updateFirst (p : Notification → Bool) (f : Notification → Notification) :
    List Notification → List Notification
  | [] => []
  | n :: rest => if p n then f n :: rest else n :: updateFirst p f rest

/-- The `$set` patch the sweep applies for a selected notification `n`,
determined by the event/contact lookups and the send outcome:
missing event or contact → `failed` with "Event or contact not found";
send returns `True` → `sent` with `sent_at = now`; returns `False` →
`failed` with "Failed to send email"; raises → `failed` with `str(e)`. -/
def fieldPatch (env : SendEnv) (now : Int) (events : List Event) (contacts : List Contact)
    (n : Notification) : Notification → Notification :=
  match events.find? (fun e => e.id == n.event_id),
        contacts.find? (fun c => c.id == n.contact_id) with
  | some _, some contact =>
    match env.send contact.email with
    | .ok => fun m => { m with status := "sent", sent_at := some { seconds := now, tz := some 0 } }
    | .failed => fun m => { m with status := "failed", error_message := some "Failed to send email" }
    | .raised msg => fun m => { m with status := "failed", error_message := some msg }
  | _, _ => fun m => { m with status := "failed", error_message := some "Event or contact not found" }

/-- One iteration of the sweep's loop for snapshot notification `n`:
`update_one({"id": n.id}, {"$set": ...})` against the current store. -/
def sweepStep (env : SendEnv) (now : Int) (events : List Event) (contacts : List Contact)
    (acc : List Notification) (n : Notification) : List Notification :=
  updateFirst (fun m => m.id == n.id) (fieldPatch env now events contacts n) acc

/-- `process_pending_notifications`: select the due batch, then process
each selected notification independently (every per-notification failure
is caught and recorded in the record itself). -/
def process_pending_notifications (env : SendEnv) (now : Int) (db : DB) : DB :=
  let pending := sweepSelect now db
  { db with notifications := pending.foldl (sweepStep env now db.events db.contacts) db.notifications }

/-- The record a selected notification `n` is patched to by the sweep. -/
def expectedOutcome (env : SendEnv) (now : Int) (db : DB) (n : Notification) : Notification :=
  fieldPatch env now db.events db.contacts n n

/-- An HTTP outcome of the notification routes. -/
inductive Response where
  | ok (msg : String) : Response
  | error (code : Nat) (detail : String) : Response
deriving DecidableEq, Repr

/-- `send_test_notification` (`backend/routes/notifications.py`):
resolve the user, the notification (scoped to the user), reject non-pending
records with a 400, resolve event and contact, send, and mark `sent` only
on a `True` return; a `False` return reports failure without touching the
record; an exception maps to a 500. -/
def send_test_notification (env : SendEnv) (now : Int) (db : DB) (notification_id : Nat)
    (firebase_uid : String) : DB × Response :=
  match db.users.find? (fun u => u.firebase_uid == firebase_uid) with
  | none => (db, .error 404 "User not found")
  | some user =>
    match db.notifications.find? (fun n => n.id == notification_id && n.user_id == user.id) with
    | none => (db, .error 404 "Notification not found")
    | some notif =>
      if notif.status ≠ "pending" then
        (db, .error 400 "Can only send pending notifications")
      else
        match db.events.find? (fun e => e.id == notif.event_id),
              db.contacts.find? (fun c => c.id == notif.contact_id) with
        | some _, some contact =>
          match env.send contact.email with
          | .ok =>
            let patched := updateFirst (fun m => m.id == notification_id)
              (fun m => { m with status := "sent",
                                 sent_at := some { seconds := now, tz := some 0 } })
              db.notifications
            ({ db with notifications := patched }, .ok "Test notification sent successfully")
          | .failed => (db, .ok "Failed to send test notification")
          | .raised msg => (db, .error 500 msg)
        | _, _ => (db, .error 404 "Event or contact not found")

/-- The legacy `calculate_notification_time` of `backend/server.py`:
no `custom` branch, no naive-to-UTC coercion; unknown units return
`event_date` unchanged. -/
def server_calculate_notification_time (event_date : PyDatetime) (interval : ReminderInterval) :
    Option PyDatetime :=
  if interval.unit = "minutes" then subTimedelta event_date interval.value 60
  else if interval.unit = "hours" then subTimedelta event_date interval.value 3600
  else if interval.unit = "days" then subTimedelta event_date interval.value 86400
  else if interval.unit = "weeks" then subTimedelta event_date interval.value 604800
  else some event_date

/-- Python `scheduled_at > datetime.now(timezone.utc)`: comparing a naive
datetime with an aware one raises `TypeError` (`none`). -/
def pyGtNow (a : PyDatetime) (now : Int) : Option Bool :=
  match a.tz with
  | none => none
  | some off => some (decide (now < a.seconds - off))

/-- The interval loop of the legacy `generate_notifications_for_subscription`
of `backend/server.py`: creation gate `scheduled_at > now`, no lateness
tolerance; aborts on a `TypeError` from resolution or from a naive/aware
comparison. -/
def server_genLoop (event : Event) (intervals : List ReminderInterval) (sub : Subscription)
    (user_id : String) (now : Int) (fresh : Nat) : List Notification × Bool :=
  match intervals with
  | [] => ([], true)
  | i :: rest =>
    match server_calculate_notification_time event.event_date i with
    | none => ([], false)
    | some sched =>
      match pyGtNow sched now with
      | none => ([], false)
      | some true =>
        let n := mkNotification fresh event.id sub.id sub.contact_id user_id sched now
        let r := server_genLoop event rest sub user_id now (fresh + 1)
        (n :: r.1, r.2)
      | some false =>
        server_genLoop event rest sub user_id now fresh

/-- The SMTP environment read by `send_email`
(`backend/utils/email_service.py`): `os.environ.get` values, with
`smtp_port_env` the raw `SMTP_PORT` string (default `"587"`). -/
structure SmtpConfig where
  smtp_host : String
  smtp_port_env : String
  smtp_user : String
  smtp_password : String
deriving DecidableEq, Repr

/-- Outcome of the underlying `aiosmtplib.send` call. -/
inductive SmtpOutcome where
  | ok : SmtpOutcome
  | raised (msg : String) : SmtpOutcome
deriving DecidableEq, Repr

/-- Python `int(s)` on a decimal string: optional sign followed by at
least one digit; `none` models the `ValueError` raised otherwise. -/
def pyIntParse (s : String) : Option Int :=
  let digits : List Char → Option Nat := fun ds =>
    if ds.isEmpty then none
    else ds.foldl (fun acc c =>
      acc.bind (fun n => if c.isDigit then some (10 * n + (c.toNat - 48)) else none)) (some 0)
  match s.data with
  | '-' :: ds => (digits ds).map (fun n => -(n : Int))
  | '+' :: ds => (digits ds).map (fun n => (n : Int))
  | ds => (digits ds).map (fun n => (n : Int))

/-- `send_email` (`backend/utils/email_service.py`).  The result is the
returned boolean paired with whether a transport delivery was attempted;
`Except.error` models an exception escaping to the caller.  The
`int(os.environ.get('SMTP_PORT', '587'))` parse runs before the
credential check and outside the `try`, so a non-numeric port raises. -/
def send_email (cfg : SmtpConfig) (transport : SmtpOutcome)
    (_to_email _subject _body : String) : Except String (Bool × Bool) :=
  match pyIntParse cfg.smtp_port_env with
  | none => .error "invalid literal for int() with base 10"
  | some _ =>
    if cfg.smtp_user = "" ∨ cfg.smtp_password = "" then
      .ok (false, false)
    else
      match transport with
      | .ok => .ok (true, true)
      | .raised _ => .ok (false, true)

/-! ## Concrete stores used by witnesses and counterexamples -/

/-- A store holding one pending notification for event `"e1"` and no
events: the regeneration-under-deletion race input. -/
def raceDB : DB :=
  { users := [], contacts := [], events := [], subscriptions := [],
    notifications := [mkNotification 0 "e1" "s1" "c1" "u1" { seconds := 0, tz := some 0 } 0] }

/-- A notification with its fresh id blanked: two runs of the factory
produce the same records up to the drawn ids. -/
def stripId (n : Notification) : Notification := { n with id := 0 }

/-- A notification already in the terminal `sent` state. -/
def sentRec : Notification :=
  { id := 5, event_id := "e1", subscription_id := "s1", contact_id := "c1",
    user_id := "u1", scheduled_at := { seconds := 200, tz := some 0 },
    sent_at := some { seconds := 250, tz := some 0 }, status := "sent",
    error_message := none, created_at := { seconds := 0, tz := some 0 } }

/-- A store with one event, one subscription and one already-sent
notification, for exercising regeneration. -/
def regenDB : DB :=
  { users := []
    contacts := [{ id := "c1", user_id := "u1", name := "Ana", email := "a@x" }]
    events := [{ id := "e1", user_id := "u1", title := "T",
                 event_date := { seconds := 100000, tz := some 0 },
                 reminder_intervals :=
                   [{ value := some 1, unit := "hours", custom_date := none },
                    { value := some 2, unit := "minutes", custom_date := none }] }]
    subscriptions := [{ id := "s1", event_id := "e1", contact_id := "c1", user_id := "u1" }]
    notifications := [sentRec] }

/-- A transport environment whose sends all succeed. -/
def okEnv : SendEnv := { send := fun _ => SendResult.ok }

/-- A second notification already in the terminal `sent` state, due in
the past. -/
def sweepSent : Notification :=
  { id := 1, event_id := "e1", subscription_id := "s1", contact_id := "c1",
    user_id := "u1", scheduled_at := { seconds := 300, tz := some 0 },
    sent_at := some { seconds := 350, tz := some 0 }, status := "sent",
    error_message := none, created_at := { seconds := 0, tz := some 0 } }

/-- A store with one due pending notification and one already-sent
notification for the same event and contact. -/
def sweepDB : DB :=
  { users := [{ id := "u1", firebase_uid := "fb1", email := "u@x" }]
    contacts := [{ id := "c1", user_id := "u1", name := "Ana", email := "a@x" }]
    events := [{ id := "e1", user_id := "u1", title := "T",
                 event_date := { seconds := 500, tz := some 0 }, reminder_intervals := [] }]
    subscriptions := []
    notifications :=
      [mkNotification 0 "e1" "s1" "c1" "u1" { seconds := 400, tz := some 0 } 0, sweepSent] }

/-- The legacy factory of `backend/server.py`: run its interval loop over
the event's reminder intervals. -/
def server_generate_notifications_for_subscription (event : Event) (sub : Subscription)
    (user_id : String) (now : Int) (fresh : Nat) : List Notification × Bool :=
  server_genLoop event event.reminder_intervals sub user_id now fresh

/-- An event whose single zero-offset reminder resolves to exactly the
evaluation instant: the two factory copies disagree on it. -/
def cmpEvent : Event :=
  { id := "e1", user_id := "u1", title := "T",
    event_date := { seconds := 1000, tz := some 0 },
    reminder_intervals := [{ value := some 0, unit := "minutes", custom_date := none }] }

/-- The subscription used to compare the two factory copies. -/
def cmpSub : Subscription := { id := "s1", event_id := "e1", contact_id := "c1", user_id := "u1" }

/-- An SMTP environment with configured credentials and the default port. -/
def goodCfg : SmtpConfig :=
  { smtp_host := "smtp.gmail.com", smtp_port_env := "587",
    smtp_user := "u", smtp_password := "p" }

/-- An SMTP environment whose `SMTP_PORT` value is not numeric. -/
def badPortCfg : SmtpConfig :=
  { smtp_host := "smtp.gmail.com", smtp_port_env := "abc",
    smtp_user := "u", smtp_password := "p" }

/-! ## Helper lemmas -/

theorem ensureUTC_of_tz_some (dt : PyDatetime) (h : dt.tz ≠ none) : ensureUTC dt = dt := by
  simp [ensureUTC, h]

theorem ensureUTC_tz_ne_none (dt : PyDatetime) : (ensureUTC dt).tz ≠ none := by
  unfold ensureUTC
  split
  · simp
  · assumption

theorem ensureUTC_idem (dt : PyDatetime) : ensureUTC (ensureUTC dt) = ensureUTC dt :=
  ensureUTC_of_tz_some _ (ensureUTC_tz_ne_none dt)

/-! ## C1 -/

/-- C1: for every event, subscription and reminder interval reached by the
factory loop, `generate_notifications_for_subscription` persists a
notification for that interval if and only if `now` minus the resolved
fire time is at most 60 seconds: a fire time exactly 60 seconds in the
past (lateness 60) is created, one 61 or more seconds in the past is
dropped, and the loop then continues with the remaining intervals. -/
theorem C1_factory_creation_gate (event : Event) (sub : Subscription) (user_id : String)
    (now : Int) (fresh : Nat) (i : ReminderInterval) (rest : List ReminderInterval)
    (sched : PyDatetime)
    (hres : calculate_notification_time event.event_date i = some sched) :
    (now - absSeconds sched ≤ 60 →
      genLoop event (i :: rest) sub user_id now fresh =
        (mkNotification fresh event.id sub.id sub.contact_id user_id sched now ::
            (genLoop event rest sub user_id now (fresh + 1)).1,
         (genLoop event rest sub user_id now (fresh + 1)).2)) ∧
    (60 < now - absSeconds sched →
      genLoop event (i :: rest) sub user_id now fresh =
        genLoop event rest sub user_id now fresh) := by
  constructor
  · intro h
    have hgate : (-60 : Int) ≤ absSeconds sched - now := by omega
    simp [genLoop, hres, hgate]
  · intro h
    have hgate : ¬ ((-60 : Int) ≤ absSeconds sched - now) := by omega
    simp [genLoop, hres, hgate]

/-- Witness for C1 at a concrete input: resolved fire time 60 seconds in
the past (created) at the head of the interval list. -/
theorem C1_factory_creation_gate_witness :
    calculate_notification_time { seconds := 1000, tz := some 0 }
        { value := some 1, unit := "minutes", custom_date := none } =
      some { seconds := 940, tz := some 0 } ∧
    ((1000 : Int) - absSeconds { seconds := 940, tz := some 0 } ≤ 60 →
      genLoop { id := "e1", user_id := "u1", title := "T",
                event_date := { seconds := 1000, tz := some 0 }, reminder_intervals := [] }
          [{ value := some 1, unit := "minutes", custom_date := none }]
          { id := "s1", event_id := "e1", contact_id := "c1", user_id := "u1" }
          "u1" 1000 0 =
        (mkNotification 0 "e1" "s1" "c1" "u1" { seconds := 940, tz := some 0 } 1000 ::
            (genLoop { id := "e1", user_id := "u1", title := "T",
                       event_date := { seconds := 1000, tz := some 0 }, reminder_intervals := [] }
                [] { id := "s1", event_id := "e1", contact_id := "c1", user_id := "u1" }
                "u1" 1000 1).1,
         (genLoop { id := "e1", user_id := "u1", title := "T",
                    event_date := { seconds := 1000, tz := some 0 }, reminder_intervals := [] }
             [] { id := "s1", event_id := "e1", contact_id := "c1", user_id := "u1" }
             "u1" 1000 1).2)) ∧
    (60 < (1000 : Int) - absSeconds { seconds := 940, tz := some 0 } →
      genLoop { id := "e1", user_id := "u1", title := "T",
                event_date := { seconds := 1000, tz := some 0 }, reminder_intervals := [] }
          [{ value := some 1, unit := "minutes", custom_date := none }]
          { id := "s1", event_id := "e1", contact_id := "c1", user_id := "u1" }
          "u1" 1000 0 =
        genLoop { id := "e1", user_id := "u1", title := "T",
                  event_date := { seconds := 1000, tz := some 0 }, reminder_intervals := [] }
            [] { id := "s1", event_id := "e1", contact_id := "c1", user_id := "u1" }
            "u1" 1000 0) :=
  ⟨by decide, C1_factory_creation_gate _ _ _ _ _ _ _ _ (by decide)⟩

/-! ## C2 -/

/-- C2: for every event time and every reminder interval with unit in
{minutes, hours, days, weeks} (and a present value), the Offset Resolver
returns the event time minus value times the unit's duration, treating a
zone-naive event time as UTC; and for every interval whose unit string is
none of minutes, hours, days, weeks, custom, it returns the (UTC-read)
event time unchanged. -/
theorem C2_offset_resolver_units (event_date : PyDatetime) (i : ReminderInterval) :
    (∀ v : Int, i.value = some v →
      (i.unit = "minutes" → calculate_notification_time event_date i =
        some { ensureUTC event_date with
               seconds := (ensureUTC event_date).seconds - v * 60 }) ∧
      (i.unit = "hours" → calculate_notification_time event_date i =
        some { ensureUTC event_date with
               seconds := (ensureUTC event_date).seconds - v * 3600 }) ∧
      (i.unit = "days" → calculate_notification_time event_date i =
        some { ensureUTC event_date with
               seconds := (ensureUTC event_date).seconds - v * 86400 }) ∧
      (i.unit = "weeks" → calculate_notification_time event_date i =
        some { ensureUTC event_date with
               seconds := (ensureUTC event_date).seconds - v * 604800 })) ∧
    (i.unit ∉ (["minutes", "hours", "days", "weeks", "custom"] : List String) →
      calculate_notification_time event_date i = some (ensureUTC event_date)) := by
  have htz := ensureUTC_tz_ne_none event_date
  constructor
  · intro v hv
    refine ⟨fun hu => ?_, fun hu => ?_, fun hu => ?_, fun hu => ?_⟩ <;>
      simp [calculate_notification_time, hu, hv, subTimedelta, ensureUTC_of_tz_some _ htz] <;>
      exact ensureUTC_of_tz_some _ htz
  · intro hu
    simp only [List.mem_cons, List.mem_singleton, not_or] at hu
    obtain ⟨h1, h2, h3, h4, h5, -⟩ := hu
    simp [calculate_notification_time, h1, h2, h3, h4, h5, ensureUTC_of_tz_some _ htz]

/-- Witness for C2: a 2-hour interval at a concrete naive event time, and
an unrecognized unit string. -/
theorem C2_offset_resolver_units_witness :
    ((({ value := some 2, unit := "hours", custom_date := none } : ReminderInterval).value
        = some 2) ∧
      (({ value := some 2, unit := "hours", custom_date := none } : ReminderInterval).unit
        = "hours") ∧
      calculate_notification_time { seconds := 10000, tz := none }
          { value := some 2, unit := "hours", custom_date := none } =
        some { ensureUTC { seconds := 10000, tz := none } with
               seconds := (ensureUTC { seconds := 10000, tz := none }).seconds - 2 * 3600 }) ∧
    ((({ value := none, unit := "fortnights", custom_date := none } : ReminderInterval).unit
        ∉ (["minutes", "hours", "days", "weeks", "custom"] : List String)) ∧
      calculate_notification_time { seconds := 10000, tz := none }
          { value := none, unit := "fortnights", custom_date := none } =
        some (ensureUTC { seconds := 10000, tz := none })) :=
  ⟨⟨by decide, by decide,
    ((C2_offset_resolver_units { seconds := 10000, tz := none }
        { value := some 2, unit := "hours", custom_date := none }).1 2 (by decide)).2.1 rfl⟩,
   ⟨by decide,
    (C2_offset_resolver_units { seconds := 10000, tz := none }
        { value := none, unit := "fortnights", custom_date := none }).2 (by decide)⟩⟩

/-! ## C3 -/

/-- C3: for every event time and every reminder interval with unit
`custom` and a present custom date, the Offset Resolver ignores the event
time and returns the interval's `custom_date` exactly, coercing it to UTC
when it is zone-naive (the result does not depend on `event_date`). -/
theorem C3_offset_resolver_custom (event_date : PyDatetime) (i : ReminderInterval)
    (d : PyDatetime) (hu : i.unit = "custom") (hd : i.custom_date = some d) :
    calculate_notification_time event_date i = some (ensureUTC d) := by
  simp [calculate_notification_time, hu, hd]

/-- Witness for C3: a zone-naive custom date is returned stamped as UTC,
independently of the event time. -/
theorem C3_offset_resolver_custom_witness :
    (({ value := none, unit := "custom",
        custom_date := some { seconds := 777, tz := none } } : ReminderInterval).unit
      = "custom") ∧
    (({ value := none, unit := "custom",
        custom_date := some { seconds := 777, tz := none } } : ReminderInterval).custom_date
      = some { seconds := 777, tz := none }) ∧
    calculate_notification_time { seconds := 123456, tz := some 3600 }
        { value := none, unit := "custom",
          custom_date := some { seconds := 777, tz := none } } =
      some (ensureUTC { seconds := 777, tz := none }) :=
  ⟨by decide, by decide,
   C3_offset_resolver_custom { seconds := 123456, tz := some 3600 }
     { value := none, unit := "custom", custom_date := some { seconds := 777, tz := none } }
     { seconds := 777, tz := none } rfl rfl⟩

/-! ## C4 -/

/-- C4 counterexample: with no event `"e1"` in the store but one pending
notification referencing `"e1"`, `regenerate_notifications` is not a
no-op — it deletes that pending notification (the delete step runs before
the existence check). -/
theorem C4_counterexample_missing_event_deletes_pending :
    raceDB.events.find? (fun e => e.id == "e1") = none ∧
    (regenerate_notifications "e1" "u1" 0 raceDB 0).1.notifications = [] ∧
    raceDB.notifications ≠ [] := by
  refine ⟨rfl, by decide, by decide⟩

/-- C4 amended: for every `event_id` with no matching event in the store,
`regenerate_notifications` still deletes every *pending* notification
whose `event_id` matches (the delete step precedes the existence check),
and then stops: nothing else in the store changes, no notification is
created, and the fresh-id counter is unchanged. -/
theorem C4_regeneration_missing_event (event_id user_id : String) (now : Int) (db : DB)
    (fresh : Nat) (h : db.events.find? (fun e => e.id == event_id) = none) :
    regenerate_notifications event_id user_id now db fresh =
      ({ db with notifications :=
            db.notifications.filter (fun n => !(n.event_id == event_id && n.status == "pending")) },
        true, fresh) := by
  simp [regenerate_notifications, h]

/-- Witness for C4 (amended) at the counterexample's store. -/
theorem C4_regeneration_missing_event_witness :
    raceDB.events.find? (fun e => e.id == "e1") = none ∧
    regenerate_notifications "e1" "u1" 0 raceDB 0 =
      ({ raceDB with notifications :=
            raceDB.notifications.filter (fun n => !(n.event_id == "e1" && n.status == "pending")) },
        true, 0) :=
  ⟨rfl, C4_regeneration_missing_event "e1" "u1" 0 raceDB 0 rfl⟩

/-! ## Sweep machinery lemmas -/

theorem fieldPatch_id (env : SendEnv) (now : Int) (events : List Event)
    (contacts : List Contact) (n m : Notification) :
    (fieldPatch env now events contacts n m).id = m.id := by
  unfold fieldPatch
  cases events.find? (fun e => e.id == n.event_id) with
  | none => rfl
  | some e =>
    cases contacts.find? (fun c => c.id == n.contact_id) with
    | none => rfl
    | some c =>
      dsimp only
      cases env.send c.email <;> rfl

theorem fieldPatch_status (env : SendEnv) (now : Int) (events : List Event)
    (contacts : List Contact) (n m : Notification) :
    (fieldPatch env now events contacts n m).status = "sent" ∨
      (fieldPatch env now events contacts n m).status = "failed" := by
  unfold fieldPatch
  cases events.find? (fun e => e.id == n.event_id) with
  | none => exact Or.inr rfl
  | some e =>
    cases contacts.find? (fun c => c.id == n.contact_id) with
    | none => exact Or.inr rfl
    | some c =>
      dsimp only
      cases env.send c.email with
      | ok => exact Or.inl rfl
      | failed => exact Or.inr rfl
      | raised msg => exact Or.inr rfl

theorem updateFirst_map_id (p : Notification → Bool) (f : Notification → Notification)
    (hf : ∀ m, (f m).id = m.id) (l : List Notification) :
    (updateFirst p f l).map (fun n => n.id) = l.map (fun n => n.id) := by
  induction l with
  | nil => rfl
  | cons n rest ih =>
    by_cases h : p n = true <;> simp [updateFirst, h, hf, ih]

theorem find?_updateFirst_of_ne (x y : Nat) (hxy : x ≠ y) (f : Notification → Notification)
    (hf : ∀ m, (f m).id = m.id) (l : List Notification) :
    (updateFirst (fun m => m.id == x) f l).find? (fun m => m.id == y) =
      l.find? (fun m => m.id == y) := by
  induction l with
  | nil => rfl
  | cons n rest ih =>
    by_cases h : n.id = x
    · have h1 : ((f n).id == y) = false := by simp [hf, h]; exact hxy
      have h2 : (n.id == y) = false := by simp [h]; exact hxy
      have h3 : (x == y) = false := by simp; exact hxy
      simp [updateFirst, h, List.find?_cons, h1, h2, h3]
    · have hp : (n.id == x) = false := by simp [h]
      by_cases hy : n.id = y
      · have hyx : ¬(y = x) := fun he => hxy he.symm
        simp [updateFirst, hp, List.find?_cons, hy, hyx]
      · have hq : (n.id == y) = false := by simp [hy]
        simp [updateFirst, hp, List.find?_cons, hq, ih]

theorem find?_updateFirst_self (x : Nat) (f : Notification → Notification)
    (hf : ∀ m, (f m).id = m.id) (l : List Notification) (m : Notification)
    (hm : l.find? (fun n => n.id == x) = some m) :
    (updateFirst (fun n => n.id == x) f l).find? (fun n => n.id == x) = some (f m) := by
  induction l with
  | nil => simp at hm
  | cons n rest ih =>
    by_cases h : n.id = x
    · have hmn : m = n := by simpa [List.find?_cons, h] using hm.symm
      have h1 : ((f n).id == x) = true := by simp [hf, h]
      simp [updateFirst, h, List.find?_cons, h1, hmn]
    · have hp : (n.id == x) = false := by simp [h]
      have hm' : rest.find? (fun n => n.id == x) = some m := by
        simpa [List.find?_cons, hp] using hm
      simp [updateFirst, hp, List.find?_cons, ih hm']

theorem find?_of_nodup_mem (l : List Notification)
    (hnd : (l.map (fun n => n.id)).Nodup) (m : Notification) (hm : m ∈ l) :
    l.find? (fun n => n.id == m.id) = some m := by
  induction l with
  | nil => cases hm
  | cons n rest ih =>
    simp only [List.map_cons, List.nodup_cons] at hnd
    rcases List.mem_cons.mp hm with rfl | hm'
    · simp [List.find?_cons]
    · have hne : (n.id == m.id) = false := by
        simp only [beq_eq_false_iff_ne, ne_eq]
        intro he
        exact hnd.1 (he ▸ List.mem_map_of_mem (fun n => n.id) hm')
      simp [List.find?_cons, hne, ih hnd.2 hm']

theorem ids_inj_of_nodup (l : List Notification) (hnd : (l.map (fun n => n.id)).Nodup)
    (a b : Notification) (ha : a ∈ l) (hb : b ∈ l) (hab : a.id = b.id) : a = b :=
  List.inj_on_of_nodup_map hnd ha hb hab

theorem sweepSelect_sublist (now : Int) (db : DB) :
    (sweepSelect now db).Sublist db.notifications :=
  (List.take_sublist _ _).trans (List.filter_sublist _)

theorem sweepSelect_mem (now : Int) (db : DB) (n : Notification)
    (hn : n ∈ sweepSelect now db) :
    n ∈ db.notifications ∧ n.status = "pending" ∧ absSeconds n.scheduled_at ≤ now := by
  have hmem : n ∈ db.notifications := (sweepSelect_sublist now db).subset hn
  have hdue : sweepDue now n = true := by
    have : n ∈ db.notifications.filter (sweepDue now) :=
      (List.take_sublist _ _).subset hn
    exact (List.mem_filter.mp this).2
  simp only [sweepDue, Bool.and_eq_true, beq_iff_eq, decide_eq_true_eq] at hdue
  exact ⟨hmem, hdue.1, hdue.2⟩

theorem sweepSelect_ids_nodup (now : Int) (db : DB)
    (hnd : (db.notifications.map (fun n => n.id)).Nodup) :
    ((sweepSelect now db).map (fun n => n.id)).Nodup :=
  hnd.sublist ((sweepSelect_sublist now db).map _)

theorem foldl_sweepStep_map_id (env : SendEnv) (now : Int) (events : List Event)
    (contacts : List Contact) (ns : List Notification) (cur : List Notification) :
    (ns.foldl (sweepStep env now events contacts) cur).map (fun n => n.id) =
      cur.map (fun n => n.id) := by
  induction ns generalizing cur with
  | nil => rfl
  | cons n rest ih =>
    rw [List.foldl_cons, ih]
    exact updateFirst_map_id _ _ (fun m => fieldPatch_id env now events contacts n m) cur

theorem foldl_sweepStep_untouched (env : SendEnv) (now : Int) (events : List Event)
    (contacts : List Contact) (ns : List Notification) (cur : List Notification) (y : Nat)
    (hy : ∀ n ∈ ns, n.id ≠ y) :
    (ns.foldl (sweepStep env now events contacts) cur).find? (fun m => m.id == y) =
      cur.find? (fun m => m.id == y) := by
  induction ns generalizing cur with
  | nil => rfl
  | cons n rest ih =>
    rw [List.foldl_cons, ih _ (fun m hm => hy m (List.mem_cons_of_mem n hm))]
    exact find?_updateFirst_of_ne n.id y (hy n (List.mem_cons_self n rest)) _
      (fun m => fieldPatch_id env now events contacts n m) cur

theorem foldl_sweepStep_processed (env : SendEnv) (now : Int) (events : List Event)
    (contacts : List Contact) (ns : List Notification) (cur : List Notification)
    (n : Notification) (hnd : (ns.map (fun m => m.id)).Nodup) (hn : n ∈ ns)
    (hcur : cur.find? (fun m => m.id == n.id) = some n) :
    (ns.foldl (sweepStep env now events contacts) cur).find? (fun m => m.id == n.id) =
      some (fieldPatch env now events contacts n n) := by
  induction ns generalizing cur with
  | nil => cases hn
  | cons h rest ih =>
    simp only [List.map_cons, List.nodup_cons] at hnd
    rw [List.foldl_cons]
    rcases List.mem_cons.mp hn with rfl | hn'
    · have hstep : (sweepStep env now events contacts cur n).find? (fun m => m.id == n.id) =
          some (fieldPatch env now events contacts n n) :=
        find?_updateFirst_self n.id _ (fun m => fieldPatch_id env now events contacts n m)
          cur n hcur
      have hrest : ∀ m ∈ rest, m.id ≠ n.id := by
        intro m hm he
        exact hnd.1 (he ▸ List.mem_map_of_mem (fun x => x.id) hm)
      rw [foldl_sweepStep_untouched env now events contacts rest _ n.id hrest]
      exact hstep
    · have hne : h.id ≠ n.id := by
        intro he
        exact hnd.1 (he ▸ List.mem_map_of_mem (fun x => x.id) hn')
      have hstep : (sweepStep env now events contacts cur h).find? (fun m => m.id == n.id) =
          some n := by
        rw [sweepStep, find?_updateFirst_of_ne h.id n.id hne _
          (fun m => fieldPatch_id env now events contacts h m) cur]
        exact hcur
      exact ih _ hnd.2 hn' hstep

/-! ## C5 -/

/-- C5: every notification is created with status `pending` and
`sent_at = null`; a sweep run selects only pending notifications,
preserves the set of record ids, leaves every notification in a terminal
state (`sent`/`failed`) untouched (even when due), and the only
transitions it performs are `pending → sent` and `pending → failed`. -/
theorem C5_lifecycle_invariants (env : SendEnv) (now : Int) (db : DB)
    (hnd : (db.notifications.map (fun n => n.id)).Nodup) :
    (∀ (fresh : Nat) (eid sid cid uid : String) (sched : PyDatetime) (cnow : Int),
      (mkNotification fresh eid sid cid uid sched cnow).status = "pending" ∧
      (mkNotification fresh eid sid cid uid sched cnow).sent_at = none) ∧
    (∀ n ∈ sweepSelect now db, n.status = "pending") ∧
    ((process_pending_notifications env now db).notifications.map (fun n => n.id) =
      db.notifications.map (fun n => n.id)) ∧
    (∀ r ∈ db.notifications, r.status ≠ "pending" →
      (process_pending_notifications env now db).notifications.find? (fun m => m.id == r.id) =
        some r) ∧
    (∀ r' ∈ (process_pending_notifications env now db).notifications,
      ∃ r ∈ db.notifications, r.id = r'.id ∧
        (r' = r ∨ (r.status = "pending" ∧ (r'.status = "sent" ∨ r'.status = "failed")))) := by
  have hmap : (process_pending_notifications env now db).notifications.map (fun n => n.id) =
      db.notifications.map (fun n => n.id) :=
    foldl_sweepStep_map_id env now db.events db.contacts (sweepSelect now db) db.notifications
  refine ⟨fun _ _ _ _ _ _ _ => ⟨rfl, rfl⟩,
          fun n hn => (sweepSelect_mem now db n hn).2.1, hmap, ?_, ?_⟩
  · intro r hr hrs
    have hne : ∀ n ∈ sweepSelect now db, n.id ≠ r.id := by
      intro n hn he
      have := ids_inj_of_nodup db.notifications hnd n r
        (sweepSelect_mem now db n hn).1 hr he
      exact hrs (this ▸ (sweepSelect_mem now db n hn).2.1)
    have hu := foldl_sweepStep_untouched env now db.events db.contacts
      (sweepSelect now db) db.notifications r.id hne
    exact hu.trans (find?_of_nodup_mem db.notifications hnd r hr)
  · intro r' hr'
    have hndf : ((process_pending_notifications env now db).notifications.map
        (fun n => n.id)).Nodup := hmap ▸ hnd
    have hfind' : (process_pending_notifications env now db).notifications.find?
        (fun m => m.id == r'.id) = some r' :=
      find?_of_nodup_mem _ hndf r' hr'
    have hidmem : r'.id ∈ db.notifications.map (fun n => n.id) := by
      rw [← hmap]
      exact List.mem_map_of_mem (fun n => n.id) hr'
    obtain ⟨r, hr, hrid⟩ := List.mem_map.mp hidmem
    refine ⟨r, hr, hrid, ?_⟩
    by_cases hsel : ∃ n ∈ sweepSelect now db, n.id = r'.id
    · obtain ⟨n, hnsel, hnid⟩ := hsel
      have hnorig := (sweepSelect_mem now db n hnsel).1
      have hcur : db.notifications.find? (fun m => m.id == n.id) = some n :=
        find?_of_nodup_mem db.notifications hnd n hnorig
      have hproc := foldl_sweepStep_processed env now db.events db.contacts
        (sweepSelect now db) db.notifications n (sweepSelect_ids_nodup now db hnd) hnsel hcur
      have hr'eq : r' = fieldPatch env now db.events db.contacts n n := by
        have hpn : (process_pending_notifications env now db).notifications =
            (sweepSelect now db).foldl (sweepStep env now db.events db.contacts)
              db.notifications := rfl
        rw [← hpn, hnid, hfind'] at hproc
        exact Option.some.inj hproc
      have hrn : r = n :=
        ids_inj_of_nodup db.notifications hnd r n hr hnorig (hnid ▸ hrid)
      refine Or.inr ⟨hrn ▸ (sweepSelect_mem now db n hnsel).2.1, ?_⟩
      rw [hr'eq]
      exact fieldPatch_status env now db.events db.contacts n n
    · have hne : ∀ n ∈ sweepSelect now db, n.id ≠ r'.id := by
        intro n hn he
        exact hsel ⟨n, hn, he⟩
      have hu := foldl_sweepStep_untouched env now db.events db.contacts
        (sweepSelect now db) db.notifications r'.id hne
      have hpn : (process_pending_notifications env now db).notifications =
          (sweepSelect now db).foldl (sweepStep env now db.events db.contacts)
            db.notifications := rfl
      rw [← hpn] at hu
      have horig : db.notifications.find? (fun m => m.id == r'.id) = some r := by
        have := find?_of_nodup_mem db.notifications hnd r hr
        rwa [hrid] at this
      have heq : some r' = some r := by
        rw [← hfind', hu, horig]
      exact Or.inl (Option.some.inj heq)

/-- Witness for C5 at a concrete store with one due pending and one
already-sent notification. -/
theorem C5_lifecycle_invariants_witness :
    (sweepDB.notifications.map (fun n => n.id)).Nodup ∧
    ((∀ (fresh : Nat) (eid sid cid uid : String) (sched : PyDatetime) (cnow : Int),
      (mkNotification fresh eid sid cid uid sched cnow).status = "pending" ∧
      (mkNotification fresh eid sid cid uid sched cnow).sent_at = none) ∧
    (∀ n ∈ sweepSelect 1000 sweepDB, n.status = "pending") ∧
    ((process_pending_notifications okEnv 1000 sweepDB).notifications.map (fun n => n.id) =
      sweepDB.notifications.map (fun n => n.id)) ∧
    (∀ r ∈ sweepDB.notifications, r.status ≠ "pending" →
      (process_pending_notifications okEnv 1000 sweepDB).notifications.find?
          (fun m => m.id == r.id) = some r) ∧
    (∀ r' ∈ (process_pending_notifications okEnv 1000 sweepDB).notifications,
      ∃ r ∈ sweepDB.notifications, r.id = r'.id ∧
        (r' = r ∨ (r.status = "pending" ∧ (r'.status = "sent" ∨ r'.status = "failed"))))) :=
  ⟨by decide, C5_lifecycle_invariants okEnv 1000 sweepDB (by decide)⟩

/-! ## C6 -/

/-- C6: each notification selected by a sweep tick (pending, due, at most
100) is processed independently and ends exactly as the claim states: the
record with its id is patched to the outcome record, which is `failed`
with "Event or contact not found" when the event or contact is missing,
`sent` with `sent_at = now` on a successful send, `failed` with
"Failed to send email" on a `False` return, and `failed` with the
exception text when the send raises. -/
theorem C6_sweep_per_notification (env : SendEnv) (now : Int) (db : DB)
    (hnd : (db.notifications.map (fun n => n.id)).Nodup)
    (n : Notification) (hn : n ∈ sweepSelect now db) :
    ((process_pending_notifications env now db).notifications.find? (fun m => m.id == n.id) =
      some (expectedOutcome env now db n)) ∧
    ((db.events.find? (fun e => e.id == n.event_id) = none ∨
      db.contacts.find? (fun c => c.id == n.contact_id) = none) →
      (expectedOutcome env now db n).status = "failed" ∧
      (expectedOutcome env now db n).error_message = some "Event or contact not found") ∧
    (∀ (e : Event) (c : Contact), db.events.find? (fun x => x.id == n.event_id) = some e →
      db.contacts.find? (fun x => x.id == n.contact_id) = some c →
      (env.send c.email = SendResult.ok →
        (expectedOutcome env now db n).status = "sent" ∧
        (expectedOutcome env now db n).sent_at = some { seconds := now, tz := some 0 }) ∧
      (env.send c.email = SendResult.failed →
        (expectedOutcome env now db n).status = "failed" ∧
        (expectedOutcome env now db n).error_message = some "Failed to send email") ∧
      (∀ msg, env.send c.email = SendResult.raised msg →
        (expectedOutcome env now db n).status = "failed" ∧
        (expectedOutcome env now db n).error_message = some msg)) := by
  refine ⟨?_, ?_, ?_⟩
  · have hcur : db.notifications.find? (fun m => m.id == n.id) = some n :=
      find?_of_nodup_mem db.notifications hnd n (sweepSelect_mem now db n hn).1
    exact foldl_sweepStep_processed env now db.events db.contacts
      (sweepSelect now db) db.notifications n (sweepSelect_ids_nodup now db hnd) hn hcur
  · intro hmiss
    rcases hmiss with he | hc
    · simp [expectedOutcome, fieldPatch, he]
    · cases hev : db.events.find? (fun e => e.id == n.event_id) with
      | none => simp [expectedOutcome, fieldPatch, hev]
      | some e => simp [expectedOutcome, fieldPatch, hev, hc]
  · intro e c he hc
    refine ⟨fun hs => ?_, fun hs => ?_, fun msg hs => ?_⟩ <;>
      simp [expectedOutcome, fieldPatch, he, hc, hs]

/-- Witness for C6: the due pending notification of the concrete store,
sent successfully. -/
theorem C6_sweep_per_notification_witness :
    (sweepDB.notifications.map (fun n => n.id)).Nodup ∧
    mkNotification 0 "e1" "s1" "c1" "u1" { seconds := 400, tz := some 0 } 0 ∈
      sweepSelect 1000 sweepDB ∧
    ((process_pending_notifications okEnv 1000 sweepDB).notifications.find?
        (fun m => m.id ==
          (mkNotification 0 "e1" "s1" "c1" "u1" { seconds := 400, tz := some 0 } 0).id) =
      some (expectedOutcome okEnv 1000 sweepDB
        (mkNotification 0 "e1" "s1" "c1" "u1" { seconds := 400, tz := some 0 } 0))) :=
  ⟨by decide, by decide,
   (C6_sweep_per_notification okEnv 1000 sweepDB (by decide)
     (mkNotification 0 "e1" "s1" "c1" "u1" { seconds := 400, tz := some 0 } 0) (by decide)).1⟩

/-! ## Regeneration machinery lemmas -/

theorem genLoop_fresh_indep (event : Event) (intervals : List ReminderInterval)
    (sub : Subscription) (uid : String) (now : Int) (f f' : Nat) :
    ((genLoop event intervals sub uid now f).1.map stripId =
      (genLoop event intervals sub uid now f').1.map stripId) ∧
    (genLoop event intervals sub uid now f).2 = (genLoop event intervals sub uid now f').2 := by
  induction intervals generalizing f f' with
  | nil => exact ⟨rfl, rfl⟩
  | cons i rest ih =>
    cases hres : calculate_notification_time event.event_date i with
    | none => simp [genLoop, hres]
    | some sched =>
      by_cases hgate : (-60 : Int) ≤ absSeconds sched - now
      · have h1 := (ih (f + 1) (f' + 1)).1
        have h2 := (ih (f + 1) (f' + 1)).2
        simp [genLoop, hres, hgate, stripId, mkNotification, h1, h2]
      · simpa [genLoop, hres, hgate] using ih f f'

theorem genLoop_cons_err (event : Event) (i : ReminderInterval)
    (rest : List ReminderInterval) (sub : Subscription) (uid : String) (now : Int) (f : Nat)
    (hres : calculate_notification_time event.event_date i = none) :
    genLoop event (i :: rest) sub uid now f = ([], false) := by
  simp [genLoop, hres]

theorem genLoop_cons_created (event : Event) (i : ReminderInterval)
    (rest : List ReminderInterval) (sub : Subscription) (uid : String) (now : Int) (f : Nat)
    (sched : PyDatetime) (hres : calculate_notification_time event.event_date i = some sched)
    (hgate : (-60 : Int) ≤ absSeconds sched - now) :
    genLoop event (i :: rest) sub uid now f =
      (mkNotification f event.id sub.id sub.contact_id uid sched now ::
        (genLoop event rest sub uid now (f + 1)).1,
       (genLoop event rest sub uid now (f + 1)).2) := by
  simp [genLoop, hres, hgate]

theorem genLoop_cons_skipped (event : Event) (i : ReminderInterval)
    (rest : List ReminderInterval) (sub : Subscription) (uid : String) (now : Int) (f : Nat)
    (sched : PyDatetime) (hres : calculate_notification_time event.event_date i = some sched)
    (hgate : ¬((-60 : Int) ≤ absSeconds sched - now)) :
    genLoop event (i :: rest) sub uid now f = genLoop event rest sub uid now f := by
  simp [genLoop, hres, hgate]

theorem genLoop_created_shape (event : Event) (intervals : List ReminderInterval)
    (sub : Subscription) (uid : String) (now : Int) (f : Nat) (n : Notification)
    (hn : n ∈ (genLoop event intervals sub uid now f).1) :
    n.status = "pending" ∧ n.event_id = event.id := by
  induction intervals generalizing f with
  | nil => cases hn
  | cons i rest ih =>
    cases hres : calculate_notification_time event.event_date i with
    | none =>
      rw [genLoop_cons_err event i rest sub uid now f hres] at hn
      cases hn
    | some sched =>
      by_cases hgate : (-60 : Int) ≤ absSeconds sched - now
      · rw [genLoop_cons_created event i rest sub uid now f sched hres hgate] at hn
        rcases List.mem_cons.mp hn with rfl | hn'
        · exact ⟨rfl, rfl⟩
        · exact ih (f + 1) hn'
      · rw [genLoop_cons_skipped event i rest sub uid now f sched hres hgate] at hn
        exact ih f hn

theorem genForSubs_cons_ok (event : Event) (uid : String) (now : Int) (s : Subscription)
    (rest : List Subscription) (f : Nat)
    (hok : (generate_notifications_for_subscription event s uid now f).2 = true) :
    genForSubs event uid now (s :: rest) f =
      ((generate_notifications_for_subscription event s uid now f).1 ++
        (genForSubs event uid now rest
          (f + (generate_notifications_for_subscription event s uid now f).1.length)).1,
       (genForSubs event uid now rest
         (f + (generate_notifications_for_subscription event s uid now f).1.length)).2) := by
  simp [genForSubs, hok]

theorem genForSubs_cons_abort (event : Event) (uid : String) (now : Int) (s : Subscription)
    (rest : List Subscription) (f : Nat)
    (hok : (generate_notifications_for_subscription event s uid now f).2 = false) :
    genForSubs event uid now (s :: rest) f =
      ((generate_notifications_for_subscription event s uid now f).1, false) := by
  simp [genForSubs, hok]

theorem genForSubs_fresh_indep (event : Event) (uid : String) (now : Int)
    (subs : List Subscription) (f f' : Nat) :
    ((genForSubs event uid now subs f).1.map stripId =
      (genForSubs event uid now subs f').1.map stripId) ∧
    (genForSubs event uid now subs f).2 = (genForSubs event uid now subs f').2 := by
  induction subs generalizing f f' with
  | nil => exact ⟨rfl, rfl⟩
  | cons s rest ih =>
    have hmap : (generate_notifications_for_subscription event s uid now f).1.map stripId =
        (generate_notifications_for_subscription event s uid now f').1.map stripId :=
      (genLoop_fresh_indep event event.reminder_intervals s uid now f f').1
    have hflag : (generate_notifications_for_subscription event s uid now f).2 =
        (generate_notifications_for_subscription event s uid now f').2 :=
      (genLoop_fresh_indep event event.reminder_intervals s uid now f f').2
    by_cases hok : (generate_notifications_for_subscription event s uid now f).2 = true
    · have hok' : (generate_notifications_for_subscription event s uid now f').2 = true :=
        hflag ▸ hok
      rw [genForSubs_cons_ok event uid now s rest f hok,
          genForSubs_cons_ok event uid now s rest f' hok']
      refine ⟨?_, (ih _ _).2⟩
      rw [List.map_append, List.map_append, hmap, (ih _ _).1]
    · have hokf : (generate_notifications_for_subscription event s uid now f).2 = false :=
        Bool.not_eq_true _ ▸ hok
      have hokf' : (generate_notifications_for_subscription event s uid now f').2 = false :=
        hflag ▸ hokf
      rw [genForSubs_cons_abort event uid now s rest f hokf,
          genForSubs_cons_abort event uid now s rest f' hokf']
      exact ⟨hmap, rfl⟩

theorem genForSubs_created_shape (event : Event) (uid : String) (now : Int)
    (subs : List Subscription) (f : Nat) (n : Notification)
    (hn : n ∈ (genForSubs event uid now subs f).1) :
    n.status = "pending" ∧ n.event_id = event.id := by
  induction subs generalizing f with
  | nil => cases hn
  | cons s rest ih =>
    by_cases hok : (generate_notifications_for_subscription event s uid now f).2 = true
    · rw [genForSubs_cons_ok event uid now s rest f hok] at hn
      rcases List.mem_append.mp hn with hn' | hn'
      · exact genLoop_created_shape event event.reminder_intervals s uid now f n hn'
      · exact ih _ hn'
    · have hokf : (generate_notifications_for_subscription event s uid now f).2 = false :=
        Bool.not_eq_true _ ▸ hok
      rw [genForSubs_cons_abort event uid now s rest f hokf] at hn
      exact genLoop_created_shape event event.reminder_intervals s uid now f n hn

theorem regen_eq_of_event_missing (eid uid : String) (now : Int) (db : DB) (fresh : Nat)
    (h : db.events.find? (fun e => e.id == eid) = none) :
    regenerate_notifications eid uid now db fresh =
      ({ db with notifications :=
          db.notifications.filter (fun n => !(n.event_id == eid && n.status == "pending")) },
        true, fresh) := by
  simp [regenerate_notifications, h]

theorem regen_eq_of_event_found (eid uid : String) (now : Int) (db : DB) (fresh : Nat)
    (event : Event) (h : db.events.find? (fun e => e.id == eid) = some event) :
    regenerate_notifications eid uid now db fresh =
      ({ db with notifications :=
          db.notifications.filter (fun n => !(n.event_id == eid && n.status == "pending")) ++
            (genForSubs event uid now
              ((db.subscriptions.filter (fun s => s.event_id == eid)).take 1000) fresh).1 },
        (genForSubs event uid now
          ((db.subscriptions.filter (fun s => s.event_id == eid)).take 1000) fresh).2,
        fresh + (genForSubs event uid now
          ((db.subscriptions.filter (fun s => s.event_id == eid)).take 1000) fresh).1.length) := by
  simp [regenerate_notifications, h]

theorem count_filter_of_keep (p : Notification → Bool) (r : Notification)
    (hp : p r = true) (l : List Notification) : (l.filter p).count r = l.count r := by
  induction l with
  | nil => rfl
  | cons n rest ih =>
    by_cases hn : p n = true
    · simp [List.filter_cons, hn, List.count_cons, ih]
    · have hne : ¬(n = r) := fun he => hn (he ▸ hp)
      have hne' : (n == r) = false := by simp [hne]
      simp [List.filter_cons, hn, List.count_cons, ih, hne']

theorem pending_for_after_delete (eid : String) (l : List Notification) :
    (l.filter (fun n => !(n.event_id == eid && n.status == "pending"))).filter
        (fun n => n.event_id == eid && n.status == "pending") = [] := by
  rw [List.filter_filter]
  refine List.filter_eq_nil_iff.mpr ?_
  intro a ha
  simp

theorem keep_of_terminal (eid : String) (r : Notification) (hr : r.status ≠ "pending") :
    (!(r.event_id == eid && r.status == "pending")) = true := by
  have h : (r.status == "pending") = false := by simp [hr]
  simp [h]

theorem filter_keep_idem (eid : String) (l : List Notification) :
    (l.filter (fun n => !(n.event_id == eid && n.status == "pending"))).filter
        (fun n => !(n.event_id == eid && n.status == "pending")) =
      l.filter (fun n => !(n.event_id == eid && n.status == "pending")) := by
  rw [List.filter_filter]
  congr 1
  funext n
  rw [Bool.and_self]

theorem filter_sel_of_append (eid : String) (l C : List Notification)
    (hC : ∀ n ∈ C, n.status = "pending" ∧ n.event_id = eid) :
    ((l.filter (fun n => !(n.event_id == eid && n.status == "pending"))) ++ C).filter
        (fun n => n.event_id == eid && n.status == "pending") = C := by
  rw [List.filter_append, pending_for_after_delete, List.nil_append]
  refine List.filter_eq_self.mpr ?_
  intro a ha
  simp [(hC a ha).1, (hC a ha).2]

theorem filter_keep_of_append (eid : String) (l C : List Notification)
    (hC : ∀ n ∈ C, n.status = "pending" ∧ n.event_id = eid) :
    ((l.filter (fun n => !(n.event_id == eid && n.status == "pending"))) ++ C).filter
        (fun n => !(n.event_id == eid && n.status == "pending")) =
      l.filter (fun n => !(n.event_id == eid && n.status == "pending")) := by
  rw [List.filter_append, filter_keep_idem]
  have hnil : C.filter (fun n => !(n.event_id == eid && n.status == "pending")) = [] := by
    refine List.filter_eq_nil_iff.mpr ?_
    intro a ha
    simp [(hC a ha).1, (hC a ha).2]
  rw [hnil, List.append_nil]

/-! ## C7 -/

/-- C7: for every store, running `regenerate_notifications` twice in a row
at the same evaluation instant (with no intervening change) yields the
same pending notifications for the event both times — equal as a multiset
of (subscription, scheduled_at) pairs — and neither run changes the
multiplicity of any notification in a terminal (`sent`/`failed`) state. -/
theorem C7_regeneration_idempotent (db : DB) (eid uid : String) (now : Int) (fresh : Nat) :
    (((pending_for eid (regenerate_notifications eid uid now
          (regenerate_notifications eid uid now db fresh).1
          (regenerate_notifications eid uid now db fresh).2.2).1).map
        (fun n => (n.subscription_id, n.scheduled_at)) : Multiset (String × PyDatetime)) =
      ((pending_for eid (regenerate_notifications eid uid now db fresh).1).map
        (fun n => (n.subscription_id, n.scheduled_at)))) ∧
    (∀ r ∈ db.notifications, r.status ≠ "pending" →
      (regenerate_notifications eid uid now db fresh).1.notifications.count r =
        db.notifications.count r ∧
      (regenerate_notifications eid uid now
          (regenerate_notifications eid uid now db fresh).1
          (regenerate_notifications eid uid now db fresh).2.2).1.notifications.count r =
        db.notifications.count r) := by
  cases hev : db.events.find? (fun e => e.id == eid) with
  | none =>
    have h1 := regen_eq_of_event_missing eid uid now db fresh hev
    have hev1 : (regenerate_notifications eid uid now db fresh).1.events.find?
        (fun e => e.id == eid) = none := by rw [h1]; exact hev
    have h2 := regen_eq_of_event_missing eid uid now
      (regenerate_notifications eid uid now db fresh).1
      (regenerate_notifications eid uid now db fresh).2.2 hev1
    constructor
    · rw [h2]
      simp only [pending_for, h1]
      rw [filter_keep_idem, pending_for_after_delete]
    · intro r hr hrs
      have hkeep := keep_of_terminal eid r hrs
      constructor
      · rw [h1]
        exact count_filter_of_keep _ r hkeep db.notifications
      · rw [h2]
        simp only [h1]
        rw [filter_keep_idem]
        exact count_filter_of_keep _ r hkeep db.notifications
  | some event =>
    have heid : event.id = eid := by
      have := List.find?_some hev
      simpa using this
    have h1 := regen_eq_of_event_found eid uid now db fresh event hev
    have hev1 : (regenerate_notifications eid uid now db fresh).1.events.find?
        (fun e => e.id == eid) = some event := by rw [h1]; exact hev
    have h2 := regen_eq_of_event_found eid uid now
      (regenerate_notifications eid uid now db fresh).1
      (regenerate_notifications eid uid now db fresh).2.2 event hev1
    have hsubs : (regenerate_notifications eid uid now db fresh).1.subscriptions =
        db.subscriptions := by rw [h1]
    have hC1 : ∀ n ∈ (genForSubs event uid now
        ((db.subscriptions.filter (fun s => s.event_id == eid)).take 1000) fresh).1,
        n.status = "pending" ∧ n.event_id = eid := by
      intro n hn
      have := genForSubs_created_shape event uid now _ fresh n hn
      exact ⟨this.1, heid ▸ this.2⟩
    have hC2 : ∀ n ∈ (genForSubs event uid now
        ((db.subscriptions.filter (fun s => s.event_id == eid)).take 1000)
        (fresh + (genForSubs event uid now
          ((db.subscriptions.filter (fun s => s.event_id == eid)).take 1000) fresh).1.length)).1,
        n.status = "pending" ∧ n.event_id = eid := by
      intro n hn
      have := genForSubs_created_shape event uid now _ _ n hn
      exact ⟨this.1, heid ▸ this.2⟩
    have hstrip := (genForSubs_fresh_indep event uid now
      ((db.subscriptions.filter (fun s => s.event_id == eid)).take 1000)
      (fresh + (genForSubs event uid now
        ((db.subscriptions.filter (fun s => s.event_id == eid)).take 1000) fresh).1.length)
      fresh).1
    constructor
    · rw [h2]
      simp only [pending_for, h1]
      rw [filter_keep_of_append eid db.notifications _ hC1,
          filter_sel_of_append eid db.notifications _ hC2,
          filter_sel_of_append eid db.notifications _ hC1]
      have hpair : ∀ l : List Notification, (l.map stripId).map
          (fun n => (n.subscription_id, n.scheduled_at)) =
          l.map (fun n => (n.subscription_id, n.scheduled_at)) := by
        intro l
        rw [List.map_map]
        rfl
      have hmp := congrArg (List.map (fun n => (n.subscription_id, n.scheduled_at))) hstrip
      rw [hpair, hpair] at hmp
      exact congrArg _ hmp
    · intro r hr hrs
      have hkeep := keep_of_terminal eid r hrs
      have hrC1 : r ∉ (genForSubs event uid now
          ((db.subscriptions.filter (fun s => s.event_id == eid)).take 1000) fresh).1 := by
        intro hmem
        exact hrs (hC1 r hmem).1
      have hrC2 : r ∉ (genForSubs event uid now
          ((db.subscriptions.filter (fun s => s.event_id == eid)).take 1000)
          (fresh + (genForSubs event uid now
            ((db.subscriptions.filter (fun s => s.event_id == eid)).take 1000)
            fresh).1.length)).1 := by
        intro hmem
        exact hrs (hC2 r hmem).1
      constructor
      · rw [h1]
        simp only [List.count_append]
        rw [count_filter_of_keep _ r hkeep db.notifications, List.count_eq_zero.mpr hrC1]
        omega
      · rw [h2]
        simp only [h1]
        rw [filter_keep_of_append eid db.notifications _ hC1]
        simp only [List.count_append]
        rw [count_filter_of_keep _ r hkeep db.notifications, List.count_eq_zero.mpr hrC2]
        omega

/-- Witness for C7 at a concrete store: one event with two reminder
intervals, one subscription, one already-sent notification. -/
theorem C7_regeneration_idempotent_witness :
    (((pending_for "e1" (regenerate_notifications "e1" "u1" 1000
          (regenerate_notifications "e1" "u1" 1000 regenDB 10).1
          (regenerate_notifications "e1" "u1" 1000 regenDB 10).2.2).1).map
        (fun n => (n.subscription_id, n.scheduled_at)) : Multiset (String × PyDatetime)) =
      ((pending_for "e1" (regenerate_notifications "e1" "u1" 1000 regenDB 10).1).map
        (fun n => (n.subscription_id, n.scheduled_at)))) ∧
    sentRec ∈ regenDB.notifications ∧ sentRec.status ≠ "pending" ∧
    ((regenerate_notifications "e1" "u1" 1000 regenDB 10).1.notifications.count sentRec =
        regenDB.notifications.count sentRec ∧
      (regenerate_notifications "e1" "u1" 1000
          (regenerate_notifications "e1" "u1" 1000 regenDB 10).1
          (regenerate_notifications "e1" "u1" 1000 regenDB 10).2.2).1.notifications.count
          sentRec =
        regenDB.notifications.count sentRec) :=
  ⟨(C7_regeneration_idempotent regenDB "e1" "u1" 1000 10).1, by decide, by decide,
   (C7_regeneration_idempotent regenDB "e1" "u1" 1000 10).2 sentRec (by decide) (by decide)⟩

/-! ## C8 -/

/-- C8: the "send test now" endpoint performs its send-and-transition only
from `pending`: for every notification resolved by the route whose status
is `sent` or `failed`, the request is rejected with a 400 error and the
store — in particular the notification record — is left unchanged. -/
theorem C8_send_test_rejects_terminal (env : SendEnv) (now : Int) (db : DB)
    (notification_id : Nat) (firebase_uid : String) (user : User) (notif : Notification)
    (huser : db.users.find? (fun u => u.firebase_uid == firebase_uid) = some user)
    (hnotif : db.notifications.find?
      (fun n => n.id == notification_id && n.user_id == user.id) = some notif)
    (hterm : notif.status = "sent" ∨ notif.status = "failed") :
    send_test_notification env now db notification_id firebase_uid =
      (db, Response.error 400 "Can only send pending notifications") := by
  have hne : notif.status ≠ "pending" := by
    rcases hterm with h | h <;> rw [h] <;> decide
  simp [send_test_notification, huser, hnotif, hne]

/-- Witness for C8: a `sent` notification is rejected and the store is
unchanged. -/
theorem C8_send_test_rejects_terminal_witness :
    sweepDB.users.find? (fun u => u.firebase_uid == "fb1") =
      some { id := "u1", firebase_uid := "fb1", email := "u@x" } ∧
    sweepDB.notifications.find? (fun n => n.id == 1 &&
      n.user_id == ({ id := "u1", firebase_uid := "fb1", email := "u@x" } : User).id) =
      some sweepSent ∧
    (sweepSent.status = "sent" ∨ sweepSent.status = "failed") ∧
    send_test_notification okEnv 1000 sweepDB 1 "fb1" =
      (sweepDB, Response.error 400 "Can only send pending notifications") :=
  ⟨by decide, by decide, Or.inl rfl,
   C8_send_test_rejects_terminal okEnv 1000 sweepDB 1 "fb1"
     { id := "u1", firebase_uid := "fb1", email := "u@x" } sweepSent
     (by decide) (by decide) (Or.inl rfl)⟩

/-! ## C9 -/

/-- C9 counterexample: at an interval resolving to exactly the evaluation
instant (lateness 0), the utils factory persists one notification while
the `server.py` factory persists none, so the two copies are not
equivalent. -/
theorem C9_counterexample_copies_differ :
    (generate_notifications_for_subscription cmpEvent cmpSub "u1" 1000 0).1.length = 1 ∧
    (server_generate_notifications_for_subscription cmpEvent cmpSub "u1" 1000 0).1.length
      = 0 := by
  constructor <;> decide

/-- C9 amended: the two factory copies are not equivalent.  The
`server.py` copy persists a notification for the interval it processes iff
its resolved fire time is strictly after `now`; in particular, for a
shared resolved fire time with lateness in [0, 60] seconds the utils copy
persists a notification and the `server.py` copy does not. -/
theorem C9_amended_server_gate (event : Event) (sub : Subscription) (uid : String)
    (now : Int) (fresh : Nat) (i : ReminderInterval) (rest : List ReminderInterval)
    (sched : PyDatetime) (off : Int)
    (hres : server_calculate_notification_time event.event_date i = some sched)
    (htz : sched.tz = some off) :
    (now < sched.seconds - off →
      server_genLoop event (i :: rest) sub uid now fresh =
        (mkNotification fresh event.id sub.id sub.contact_id uid sched now ::
          (server_genLoop event rest sub uid now (fresh + 1)).1,
         (server_genLoop event rest sub uid now (fresh + 1)).2)) ∧
    (sched.seconds - off ≤ now →
      server_genLoop event (i :: rest) sub uid now fresh =
        server_genLoop event rest sub uid now fresh) ∧
    (calculate_notification_time event.event_date i = some sched →
      0 ≤ now - absSeconds sched → now - absSeconds sched ≤ 60 →
      (genLoop event (i :: rest) sub uid now fresh).1.length =
        (genLoop event rest sub uid now (fresh + 1)).1.length + 1 ∧
      (server_genLoop event (i :: rest) sub uid now fresh).1.length =
        (server_genLoop event rest sub uid now fresh).1.length) := by
  have habs : absSeconds sched = sched.seconds - off := by simp [absSeconds, htz]
  refine ⟨fun h => ?_, fun h => ?_, fun hres2 h0 h60 => ?_⟩
  · simp [server_genLoop, hres, pyGtNow, htz, h]
  · simp [server_genLoop, hres, pyGtNow, htz, not_lt.mpr h]
  · constructor
    · have hgate : (-60 : Int) ≤ absSeconds sched - now := by omega
      rw [genLoop_cons_created event i rest sub uid now fresh sched hres2 hgate]
      simp
    · have hgt : ¬(now < sched.seconds - off) := by
        rw [habs] at h0
        omega
      rw [show server_genLoop event (i :: rest) sub uid now fresh =
          server_genLoop event rest sub uid now fresh by
        simp [server_genLoop, hres, pyGtNow, htz, hgt]]

/-- Witness for C9 (amended): zero-offset interval at lateness 0 — the
utils copy creates, the server copy skips. -/
theorem C9_amended_server_gate_witness :
    server_calculate_notification_time cmpEvent.event_date
        { value := some 0, unit := "minutes", custom_date := none } =
      some { seconds := 1000, tz := some 0 } ∧
    ({ seconds := 1000, tz := some 0 } : PyDatetime).tz = some 0 ∧
    calculate_notification_time cmpEvent.event_date
        { value := some 0, unit := "minutes", custom_date := none } =
      some { seconds := 1000, tz := some 0 } ∧
    (0 : Int) ≤ 1000 - absSeconds { seconds := 1000, tz := some 0 } ∧
    (1000 : Int) - absSeconds { seconds := 1000, tz := some 0 } ≤ 60 ∧
    ((genLoop cmpEvent [{ value := some 0, unit := "minutes", custom_date := none }]
        cmpSub "u1" 1000 0).1.length =
      (genLoop cmpEvent [] cmpSub "u1" 1000 1).1.length + 1 ∧
     (server_genLoop cmpEvent [{ value := some 0, unit := "minutes", custom_date := none }]
        cmpSub "u1" 1000 0).1.length =
      (server_genLoop cmpEvent [] cmpSub "u1" 1000 0).1.length) :=
  ⟨by decide, rfl, by decide, by decide, by decide,
   (C9_amended_server_gate cmpEvent cmpSub "u1" 1000 0
       { value := some 0, unit := "minutes", custom_date := none } []
       { seconds := 1000, tz := some 0 } 0 (by decide) rfl).2.2
     (by decide) (by decide) (by decide)⟩

/-! ## C10 -/

/-- C10 counterexample: with a non-numeric `SMTP_PORT` environment value,
`send_email` raises (the `int(...)` parse runs outside the `try` and
before the credential check), so it does not return a boolean for every
input. -/
theorem C10_counterexample_bad_port :
    send_email badPortCfg SmtpOutcome.ok "t@x" "s" "b" =
      Except.error "invalid literal for int() with base 10" := by
  rfl

/-- C10 amended: whenever the `SMTP_PORT` environment value parses as an
integer (it defaults to `"587"`), `send_email` never propagates an
exception: it returns `False` without attempting delivery when `SMTP_USER`
or `SMTP_PASSWORD` is unconfigured, returns `True` on a successful send,
and returns `False` when the SMTP transport raises. -/
theorem C10_amended_send_email_total (cfg : SmtpConfig) (transport : SmtpOutcome)
    (to_email subject body : String) (p : Int)
    (hport : pyIntParse cfg.smtp_port_env = some p) :
    ((cfg.smtp_user = "" ∨ cfg.smtp_password = "") →
      send_email cfg transport to_email subject body = Except.ok (false, false)) ∧
    (cfg.smtp_user ≠ "" → cfg.smtp_password ≠ "" →
      (transport = SmtpOutcome.ok →
        send_email cfg transport to_email subject body = Except.ok (true, true)) ∧
      (∀ msg, transport = SmtpOutcome.raised msg →
        send_email cfg transport to_email subject body = Except.ok (false, true))) := by
  constructor
  · intro hcred
    simp [send_email, hport, hcred]
  · intro hu hp
    have hcred : ¬(cfg.smtp_user = "" ∨ cfg.smtp_password = "") := by
      intro h
      rcases h with h | h
      · exact hu h
      · exact hp h
    refine ⟨fun ht => ?_, fun msg ht => ?_⟩ <;> simp [send_email, hport, hcred, ht]

/-- Witness for C10 (amended) at the default port string and configured
credentials. -/
theorem C10_amended_send_email_total_witness :
    pyIntParse goodCfg.smtp_port_env = some 587 ∧
    (((goodCfg.smtp_user = "" ∨ goodCfg.smtp_password = "") →
      send_email goodCfg SmtpOutcome.ok "t@x" "s" "b" = Except.ok (false, false)) ∧
    (goodCfg.smtp_user ≠ "" → goodCfg.smtp_password ≠ "" →
      (SmtpOutcome.ok = SmtpOutcome.ok →
        send_email goodCfg SmtpOutcome.ok "t@x" "s" "b" = Except.ok (true, true)) ∧
      (∀ msg, SmtpOutcome.ok = SmtpOutcome.raised msg →
        send_email goodCfg SmtpOutcome.ok "t@x" "s" "b" = Except.ok (false, true)))) :=
  ⟨by decide,
   C10_amended_send_email_total goodCfg SmtpOutcome.ok "t@x" "s" "b" 587 (by decide)⟩

end AppNotify
